import Mathlib

/-!
Verification of the WebGL gradient renderer of the MYportfolio repository.

The embedding translates, from the TypeScript and GLSL sources:
* the color model (`hexToRGB`, `interpolateColor`) of `src/lib/webgl/types.ts`;
* the fragment shader (`blendColors` and the per-pixel program) of
  `src/lib/webgl/shaders.ts`;
* the renderer lifecycle (`GradientRenderer`) of
  `src/lib/webgl/gradient-renderer.ts`.

JavaScript numbers are modelled as exact rationals, except where a property is
explicitly about IEEE-754 double precision; for that case a round-to-nearest,
ties-to-even binary64 model (`f64round`, normal range) is provided.  GLSL
`float` arithmetic inside the shader is idealised over the real numbers.
-/

namespace Portfolio

/-! ## ColorModel (`src/lib/webgl/types.ts`) -/

/-- The `RGB` record of `types.ts`, parametric in the number type. -/
structure RGB (K : Type) where
  r : K
  g : K
  b : K
deriving DecidableEq

/-- Character test for the regex class `[a-f\d]` under the `i` flag:
decimal digits (codes 48-57), `a`-`f` (97-102), `A`-`F` (65-70). -/
def isHexDigit (c : Char) : Bool :=
  (48 ≤ c.toNat && c.toNat ≤ 57) || (97 ≤ c.toNat && c.toNat ≤ 102) ||
    (65 ≤ c.toNat && c.toNat ≤ 70)

/-- Value of one hex digit, as `parseInt(_, 16)` computes it on the digits
admitted by the regex. -/
def hexDigitVal (c : Char) : ℕ :=
  if c.toNat ≤ 57 then c.toNat - 48
  else if 97 ≤ c.toNat then c.toNat - 87
  else c.toNat - 55

/-- The optional leading `#` of the regex `^#?...$`. -/
def stripHash (cs : List Char) : List Char :=
  match cs with
  | c :: rest => if c = '#' then rest else c :: rest
  | [] => []

/-- Byte value of a two-hex-digit capture group, `parseInt(group, 16)`. -/
def hexByte (c1 c2 : Char) : ℕ := 16 * hexDigitVal c1 + hexDigitVal c2

/-- `hexToRGB` of `types.ts`: run
`/^#?([a-f\d]{2})([a-f\d]{2})([a-f\d]{2})$/i.exec(hex)`, throw
`Invalid hex color` when there is no match, and otherwise divide each of the
three captured byte values by 255. -/
def hexToRGB (s : String) : Except String (RGB ℚ) :=
  match stripHash s.data with
  | [c1, c2, c3, c4, c5, c6] =>
    if isHexDigit c1 && isHexDigit c2 && isHexDigit c3 && isHexDigit c4 &&
        isHexDigit c5 && isHexDigit c6 then
      .ok ⟨(hexByte c1 c2 : ℚ) / 255, (hexByte c3 c4 : ℚ) / 255,
        (hexByte c5 c6 : ℚ) / 255⟩
    else
      .error ("Invalid hex color: " ++ s)
  | _ => .error ("Invalid hex color: " ++ s)

/-- Whether `hexToRGB` succeeds on `s`. -/
def hexValid (s : String) : Bool :=
  match hexToRGB s with
  | .ok _ => true
  | .error _ => false

/-- `interpolateColor` of `types.ts`: per-channel `c1 + (c2 - c1) * t`. -/
def interpolateColor (c1 c2 : RGB ℚ) (t : ℚ) : RGB ℚ :=
  ⟨c1.r + (c2.r - c1.r) * t, c1.g + (c2.g - c1.g) * t, c1.b + (c2.b - c1.b) * t⟩

/-- JavaScript `Math.round`: the floor of `x + 1/2`. -/
def jsRound (q : ℚ) : ℤ := ⌊q + 1 / 2⌋

/-- Specification-side reading of the hex pattern `#?[0-9a-fA-F]{6}`: the
string is exactly six hex digits, with an optional leading `#`. -/
def hexPatternSpec (s : String) : Prop :=
  ∃ c1 c2 c3 c4 c5 c6 : Char,
    (s.data = [c1, c2, c3, c4, c5, c6] ∨
      s.data = '#' :: [c1, c2, c3, c4, c5, c6]) ∧
    (isHexDigit c1 && isHexDigit c2 && isHexDigit c3 && isHexDigit c4 &&
      isHexDigit c5 && isHexDigit c6) = true

/-- The three byte values encoded by a well-formed hex color string. -/
def encodedBytes (s : String) : Option (ℕ × ℕ × ℕ) :=
  match stripHash s.data with
  | [c1, c2, c3, c4, c5, c6] =>
    if isHexDigit c1 && isHexDigit c2 && isHexDigit c3 && isHexDigit c4 &&
        isHexDigit c5 && isHexDigit c6 then
      some (hexByte c1 c2, hexByte c3 c4, hexByte c5 c6)
    else none
  | _ => none

/-! ## An IEEE-754 binary64 model for the claim about floating point

JavaScript numbers are binary64, and every arithmetic operation rounds its
exact result to the nearest representable value, with ties going to the even
significand.  `f64round` models that rounding on exact rationals in the
normal range (53-bit significand; overflow and subnormals are not modelled,
and every value handled below lies well inside the normal range). -/

/-- Fuel-driven floor of the base-2 logarithm on naturals: `log2fuel fuel n`
is correct whenever `n ≤ fuel` or `n ≤ 1`. -/
def log2fuel : ℕ → ℕ → ℕ
  | 0, _ => 0
  | fuel + 1, n => if n ≤ 1 then 0 else log2fuel fuel (n / 2) + 1

/-- Floor of the base-2 logarithm of a natural number (0 at 0). -/
def natLog2 (n : ℕ) : ℕ := log2fuel n n

/-- Powers of two as rationals, with integer exponent. -/
def pow2z (e : ℤ) : ℚ :=
  if 0 ≤ e then (2 : ℚ) ^ e.toNat else ((2 : ℚ) ^ (-e).toNat)⁻¹

/-- Floor of the base-2 logarithm of a positive rational. -/
def floorLog2 (x : ℚ) : ℤ :=
  if 1 ≤ x then (natLog2 ⌊x⌋.toNat : ℤ)
  else if x * 2 ^ natLog2 ⌊x⁻¹⌋.toNat = 1 then -(natLog2 ⌊x⁻¹⌋.toNat : ℤ)
  else -(natLog2 ⌊x⁻¹⌋.toNat : ℤ) - 1

/-- Round a 52-bit-scaled magnitude to an integer significand: to nearest,
ties to the even significand. -/
def roundMantissa (scaled : ℚ) : ℤ :=
  if scaled - ⌊scaled⌋ < 1 / 2 then ⌊scaled⌋
  else if 1 / 2 < scaled - ⌊scaled⌋ then ⌊scaled⌋ + 1
  else if ⌊scaled⌋ % 2 = 0 then ⌊scaled⌋ else ⌊scaled⌋ + 1

/-- Round an exact rational to the nearest binary64 value (ties to even),
assuming a result in the normal range. -/
def f64round (x : ℚ) : ℚ :=
  if x = 0 then 0
  else if x < 0 then
    -((roundMantissa (|x| * pow2z (52 - floorLog2 |x|)) : ℚ) *
      pow2z (floorLog2 |x| - 52))
  else
    (roundMantissa (x * pow2z (52 - floorLog2 x)) : ℚ) *
      pow2z (floorLog2 x - 52)

/-- Binary64 addition: exact sum, then rounding. -/
def f64add (a b : ℚ) : ℚ := f64round (a + b)

/-- Binary64 subtraction: exact difference, then rounding. -/
def f64sub (a b : ℚ) : ℚ := f64round (a - b)

/-- Binary64 multiplication: exact product, then rounding. -/
def f64mul (a b : ℚ) : ℚ := f64round (a * b)

/-- `interpolateColor` as a JavaScript engine evaluates it: every `+`, `-`,
`*` of `c1 + (c2 - c1) * t` rounds its result to binary64. -/
def interpolateColorF64 (c1 c2 : RGB ℚ) (t : ℚ) : RGB ℚ :=
  ⟨f64add c1.r (f64mul (f64sub c2.r c1.r) t),
    f64add c1.g (f64mul (f64sub c2.g c1.g) t),
    f64add c1.b (f64mul (f64sub c2.b c1.b) t)⟩

/-! ## The fragment shader (`src/lib/webgl/shaders.ts`)

GLSL float arithmetic is idealised over an ordered field with a floor
function; the shader is then instantiated at `ℝ`, and `blendColors` is also
analysed at `ℚ`. -/

/-- GLSL `mix(x, y, a) = x * (1 - a) + y * a`. -/
def glslMix {K : Type} [LinearOrderedField K] (x y a : K) : K :=
  x * (1 - a) + y * a

/-- GLSL `mix` on `vec3` color values, componentwise. -/
def mixRGB {K : Type} [LinearOrderedField K] (x y : RGB K) (a : K) : RGB K :=
  ⟨glslMix x.r y.r a, glslMix x.g y.g a, glslMix x.b y.b a⟩

/-- GLSL `fract(x) = x - floor(x)`. -/
def glslFract {K : Type} [LinearOrderedField K] [FloorRing K] (x : K) : K :=
  x - ⌊x⌋

/-- GLSL `mod(x, y) = x - y * floor(x / y)`. -/
def glslMod {K : Type} [LinearOrderedField K] [FloorRing K] (x y : K) : K :=
  x - y * ⌊x / y⌋

/-- `blendColors` of the fragment shader: wrap `t` with `mod(t, 1.0)`, scale
by the color count 6, branch on `int(floor(colorIndex))` (which here is the
floor, the argument being nonnegative) and `mix` the two segment endpoint
colors by `fract(colorIndex)`; the final `else` maps segment 5 from `color6`
back to `color1`. -/
def blendColors {K : Type} [LinearOrderedField K] [FloorRing K]
    (c1 c2 c3 c4 c5 c6 : RGB K) (t : K) : RGB K :=
  let normalizedTime := glslMod t 1
  let colorCount : K := 6
  let colorIndex := normalizedTime * colorCount
  let colorT := glslFract colorIndex
  let index : ℤ := ⌊colorIndex⌋
  if index = 0 then mixRGB c1 c2 colorT
  else if index = 1 then mixRGB c2 c3 colorT
  else if index = 2 then mixRGB c3 c4 colorT
  else if index = 3 then mixRGB c4 c5 colorT
  else if index = 4 then mixRGB c5 c6 colorT
  else mixRGB c6 c1 colorT

/-- The six color uniforms read as six equally spaced stops on a closed loop:
stop `i` for segment indices `i = 0, ..., 5`, wrapping back to the first. -/
def paletteStop (c1 c2 c3 c4 c5 c6 : RGB ℚ) (i : ℤ) : RGB ℚ :=
  if i = 0 then c1 else if i = 1 then c2 else if i = 2 then c3
  else if i = 3 then c4 else if i = 4 then c5 else c6

/-- Specification-side palette mapping, written from the claim: wrap `t` into
`[0, 1)`, multiply by 6, use the integer part as a segment index `0`-`5`
(where segment 5 interpolates from the sixth color back to the first), and
linearly interpolate between the segment endpoints by the fractional part. -/
def closedLoopBlend (c1 c2 c3 c4 c5 c6 : RGB ℚ) (t : ℚ) : RGB ℚ :=
  interpolateColor
    (paletteStop c1 c2 c3 c4 c5 c6 (⌊Int.fract t * 6⌋ % 6))
    (paletteStop c1 c2 c3 c4 c5 c6 ((⌊Int.fract t * 6⌋ + 1) % 6))
    (Int.fract (Int.fract t * 6))

/-- GLSL two-argument `atan(y, x)`: the argument of the point `(x, y)`. -/
noncomputable def glslAtan2 (y x : ℝ) : ℝ := Complex.arg ⟨x, y⟩

/-- GLSL `clamp(x, lo, hi)`. -/
noncomputable def glslClamp (x lo hi : ℝ) : ℝ := min (max x lo) hi

/-- GLSL `smoothstep(e0, e1, x)`. -/
noncomputable def glslSmoothstep (e0 e1 x : ℝ) : ℝ :=
  glslClamp ((x - e0) / (e1 - e0)) 0 1 * glslClamp ((x - e0) / (e1 - e0)) 0 1 *
    (3 - 2 * glslClamp ((x - e0) / (e1 - e0)) 0 1)

/-- GLSL `distance` on `vec2`. -/
noncomputable def glslDistance (a b : ℝ × ℝ) : ℝ :=
  Real.sqrt ((a.1 - b.1) ^ 2 + (a.2 - b.2) ^ 2)

/-- The shader's `random`: `fract(sin(dot(st, vec2(12.9898, 78.233))) *
43758.5453123)`. -/
noncomputable def glslRandom (st : ℝ × ℝ) : ℝ :=
  glslFract (Real.sin (st.1 * 12.9898 + st.2 * 78.233) * 43758.5453123)

/-- The shader's value-noise `noise(st)`: corner hashes of the containing
cell, blended by the smootherstep weights `f * f * (3 - 2 f)`. -/
noncomputable def glslNoise (st : ℝ × ℝ) : ℝ :=
  let i1 : ℝ := (⌊st.1⌋ : ℤ)
  let i2 : ℝ := (⌊st.2⌋ : ℤ)
  let f1 := glslFract st.1
  let f2 := glslFract st.2
  let a := glslRandom (i1, i2)
  let b := glslRandom (i1 + 1, i2)
  let c := glslRandom (i1, i2 + 1)
  let d := glslRandom (i1 + 1, i2 + 1)
  let u1 := f1 * f1 * (3 - 2 * f1)
  let u2 := f2 * f2 * (3 - 2 * f2)
  glslMix a b u1 + (c - a) * u2 * (1 - u1) + (d - b) * u1 * u2

/-- The shader's `fbm(st, octaves)`: up to 8 octaves, amplitude starting at
0.5 and halving, frequency starting at 1 and doubling; the loop breaks once
`i ≥ octaves`, which (the counter being increasing) is the conditional skip
modelled here. -/
noncomputable def fbm (st : ℝ × ℝ) (octaves : ℤ) : ℝ :=
  ((List.range 8).foldl
    (fun acc i =>
      if (i : ℤ) < octaves then
        (acc.1 + acc.2.1 * glslNoise (st.1 * acc.2.2, st.2 * acc.2.2),
          acc.2.1 * 0.5, acc.2.2 * 2)
      else acc)
    ((0 : ℝ), (0.5 : ℝ), (1 : ℝ))).1

/-- The uniform block of the fragment shader (`u_time`, `u_resolution`,
`u_cycleSpeed`, `u_grainIntensity`, `u_color1` ... `u_color6`). -/
structure Uniforms where
  time : ℝ
  resolutionX : ℝ
  resolutionY : ℝ
  cycleSpeed : ℝ
  grainIntensity : ℝ
  color1 : RGB ℝ
  color2 : RGB ℝ
  color3 : RGB ℝ
  color4 : RGB ℝ
  color5 : RGB ℝ
  color6 : RGB ℝ

/-- The fragment shader `main`, line by line: flow fields, breathing noise,
weighted sum, drift `+ slowTime * 0.12` wrapped by `fract`, palette lookup,
grain, and the three radial glows; output color before the display pipeline's
implicit clamping. -/
noncomputable def fragmentMain (u : Uniforms) (fragCoord : ℝ × ℝ) : RGB ℝ :=
  let uv1 := fragCoord.1 / u.resolutionX
  let uv2 := fragCoord.2 / u.resolutionY
  let st1 := uv1 * (u.resolutionX / u.resolutionY)
  let st2 := uv2
  let slowTime := u.time / u.cycleSpeed
  let mediumTime := slowTime * 1.3
  let fastTime := slowTime * 2.5
  let pourHeight := (1 - st2) + Real.sin (slowTime * 1.5) * 0.3
  let pourVariation := Real.sin (st1 * 8 + slowTime * 2) * 0.15
  let paintPour := pourHeight + pourVariation
  let dripLeft := (1 - st2) + Real.sin (slowTime * 2.2 + st1 * 2) * 0.4
  let dripRight := (1 - st2) + Real.cos (slowTime * 1.7 + st1 * 3) * 0.35
  let dripCenter := (1 - st2) + Real.sin (slowTime * 1.9 + st1 * 4) * 0.38
  let spread := st1 + Real.sin ((1 - st2) * 6 + slowTime * 2.5) * 0.4
  let spreadWave := st1 + Real.cos (st2 * 10 - slowTime * 3) * 0.3
  let riseUp := st2 + Real.sin (slowTime * 1.8 + st1 * 5) * 0.35
  let risingColumn := st2 + Real.cos (st1 * 7 - slowTime * 1.5) * 0.3
  let mixing := fbm ((st1 + Real.sin (slowTime * 2) * 0.2) * 3,
    (st2 + Real.cos (slowTime * 1.8) * 0.2) * 3) 4 * 0.5
  let swirl := glslAtan2 (st2 - 0.5) (st1 - 0.5) + slowTime * 1.2
  let swirlMix := Real.sin (swirl * 4) * 0.25
  let diagonalPour1 := (st1 + (1 - st2)) * 0.5 + Real.sin (slowTime * 1.6) * 0.3
  let diagonalPour2 := ((1 - st1) + (1 - st2)) * 0.5 + Real.cos (slowTime * 1.9) * 0.3
  let breathing1 := fbm (st1 * 2 + slowTime * 0.5, st2 * 2 + slowTime * 0.5 * 0.7) 4 * 0.25
  let breathing2 := fbm (st1 * (2 * 1.5) + mediumTime * 0.5 * 0.6,
    st2 * (2 * 1.5) + mediumTime * 0.5 * 0.8) 3 * 0.15
  let breathing3 := fbm (st1 * (2 * 2.5) + fastTime * 0.5 * 0.4,
    st2 * (2 * 2.5) + fastTime * 0.5 * 0.5) 2 * 0.08
  let breathing := breathing1 + breathing2 + breathing3
  let gradientPositionRaw :=
    paintPour * 0.35 + dripLeft * 0.10 + dripRight * 0.08 + dripCenter * 0.07 +
      spread * 0.08 + spreadWave * 0.07 + riseUp * 0.07 + risingColumn * 0.05 +
      mixing * 0.06 + swirlMix * 0.04 + diagonalPour1 * 0.05 +
      diagonalPour2 * 0.03 + breathing * 0.15
  let gradientPosition := glslFract (gradientPositionRaw + slowTime * 0.12)
  let base := blendColors u.color1 u.color2 u.color3 u.color4 u.color5 u.color6
    gradientPosition
  let grain := glslRandom (uv1 * 100 + u.time * 0.01, uv2 * 100 + u.time * 0.01) *
    u.grainIntensity
  let glow1 := 1 - glslSmoothstep 0 1.5 (glslDistance (uv1, uv2)
    (0.5 + Real.sin (slowTime * 1) * 0.35, 0.7 + Real.cos (slowTime * 0.8) * 0.25))
  let glow2 := 1 - glslSmoothstep 0 1.8 (glslDistance (uv1, uv2)
    (0.5 + Real.sin (slowTime * 1.4) * 0.30, 0.3 + Real.cos (slowTime * 1.1) * 0.20))
  let glow3 := 1 - glslSmoothstep 0 1.2 (glslDistance (uv1, uv2)
    (0.5 + Real.sin (fastTime * 0.6) * 0.20, 0.5 + Real.cos (fastTime * 0.7) * 0.15))
  let radialGlow := glow1 * 0.12 + glow2 * 0.10 + glow3 * 0.06
  ⟨base.r + grain + radialGlow, base.g + grain + radialGlow,
    base.b + grain + radialGlow⟩

/-! ## The renderer (`src/lib/webgl/gradient-renderer.ts`) -/

/-- The `GradientConfig` interface of `types.ts`. -/
structure GradientConfig where
  colors : List String
  cycleSpeed : ℚ
  fullCycleDuration : ℚ
  enableBreathing : Bool
  enableXInversion : Bool
  enableGrain : Bool
  grainIntensity : ℚ
  targetFPS : ℚ
deriving DecidableEq

/-- `DEFAULT_CONFIG` of `types.ts` (cyan, rich violet, deep lavender, deep
purple, dark blue, deep teal, navy blue, midnight blue). -/
def DEFAULT_CONFIG : GradientConfig where
  colors := ["#13ffe3", "#6B2FD8", "#9B7FD8", "#4316d3", "#2916C7", "#00A3CC",
    "#0F1B3D", "#1e2635"]
  cycleSpeed := 4.5
  fullCycleDuration := 37.5
  enableBreathing := true
  enableXInversion := true
  enableGrain := true
  grainIntensity := 0.03
  targetFPS := 60

/-- `Partial<GradientConfig>`: every field optional. -/
structure PartialGradientConfig where
  colors : Option (List String) := none
  cycleSpeed : Option ℚ := none
  fullCycleDuration : Option ℚ := none
  enableBreathing : Option Bool := none
  enableXInversion : Option Bool := none
  enableGrain : Option Bool := none
  grainIntensity : Option ℚ := none
  targetFPS : Option ℚ := none
deriving DecidableEq

/-- The JavaScript spread `{ ...c, ...p }` for a partial override `p`: fields
present in `p` win, omitted fields keep the value from `c`. -/
def mergeConfig (c : GradientConfig) (p : PartialGradientConfig) : GradientConfig where
  colors := p.colors.getD c.colors
  cycleSpeed := p.cycleSpeed.getD c.cycleSpeed
  fullCycleDuration := p.fullCycleDuration.getD c.fullCycleDuration
  enableBreathing := p.enableBreathing.getD c.enableBreathing
  enableXInversion := p.enableXInversion.getD c.enableXInversion
  enableGrain := p.enableGrain.getD c.enableGrain
  grainIntensity := p.grainIntensity.getD c.grainIntensity
  targetFPS := p.targetFPS.getD c.targetFPS

/-- The GL-side uniform state of the program: one slot per uniform of the
fragment shader.  WebGL initialises every uniform of a freshly linked program
to zero. -/
structure UniformStore where
  time : ℚ
  resolutionX : ℚ
  resolutionY : ℚ
  cycleSpeed : ℚ
  grainIntensity : ℚ
  color1 : RGB ℚ
  color2 : RGB ℚ
  color3 : RGB ℚ
  color4 : RGB ℚ
  color5 : RGB ℚ
  color6 : RGB ℚ
deriving DecidableEq

/-- The all-zero color. -/
def zeroRGB : RGB ℚ := ⟨0, 0, 0⟩

/-- Uniform state right after linking: all slots zero. -/
def initialUniformStore : UniformStore where
  time := 0
  resolutionX := 0
  resolutionY := 0
  cycleSpeed := 0
  grainIntensity := 0
  color1 := zeroRGB
  color2 := zeroRGB
  color3 := zeroRGB
  color4 := zeroRGB
  color5 := zeroRGB
  color6 := zeroRGB

/-- `this.config.colors.map(hexToRGB)`: parses every configured color,
propagating the first `Invalid hex color` throw. -/
def mapHexToRGB : List String → Except String (List (RGB ℚ))
  | [] => .ok []
  | s :: rest =>
    match hexToRGB s with
    | .error e => .error e
    | .ok c =>
      match mapHexToRGB rest with
      | .error e => .error e
      | .ok cs => .ok (c :: cs)

/-- The parsed color of a valid hex string (zero on invalid input; used only
under a validity hypothesis). -/
def hexRGBval (s : String) : RGB ℚ :=
  match hexToRGB s with
  | .ok c => c
  | .error _ => zeroRGB

/-- `GradientRenderer.updateUniforms(time)`: writes time, the canvas
resolution, `cycleSpeed`, `grainIntensity`, and color slot `k` exactly when
`colors[k-1]` exists (`k = 1 .. 6`); other slots keep their previous value.
Parsing the configured colors happens here, on every call. -/
def updateUniformsStore (cfg : GradientConfig) (time w h : ℚ) (u : UniformStore) :
    Except String UniformStore :=
  match mapHexToRGB cfg.colors with
  | .error e => .error e
  | .ok colors =>
    .ok { time := time
          resolutionX := w
          resolutionY := h
          cycleSpeed := cfg.cycleSpeed
          grainIntensity := cfg.grainIntensity
          color1 := (colors[0]?).getD u.color1
          color2 := (colors[1]?).getD u.color2
          color3 := (colors[2]?).getD u.color3
          color4 := (colors[3]?).getD u.color4
          color5 := (colors[4]?).getD u.color5
          color6 := (colors[5]?).getD u.color6 }

/-- Interpretation of a rational color as the real color fed to the shader. -/
noncomputable def rgbToReal (c : RGB ℚ) : RGB ℝ := ⟨(c.r : ℝ), (c.g : ℝ), (c.b : ℝ)⟩

/-- The uniform store as the shader sees it. -/
noncomputable def toUniforms (s : UniformStore) : Uniforms where
  time := (s.time : ℝ)
  resolutionX := (s.resolutionX : ℝ)
  resolutionY := (s.resolutionY : ℝ)
  cycleSpeed := (s.cycleSpeed : ℝ)
  grainIntensity := (s.grainIntensity : ℝ)
  color1 := rgbToReal s.color1
  color2 := rgbToReal s.color2
  color3 := rgbToReal s.color3
  color4 := rgbToReal s.color4
  color5 := rgbToReal s.color5
  color6 := rgbToReal s.color6

/-- The engine state owned by `GradientRenderer`: resource handles (opaque),
the merged configuration, and the animation bookkeeping of `RendererState`. -/
structure Engine where
  gl : Option ℕ
  program : Option ℕ
  meshBuffers : Option ℕ
  config : GradientConfig
  isRunning : Bool
  animationFrameId : Option ℕ
  startTime : ℚ
deriving DecidableEq

/-- `new GradientRenderer(canvas, config)`: merge the partial configuration
over `DEFAULT_CONFIG`, all handles null, not running, `startTime: 0`. -/
def mkRenderer (p : PartialGradientConfig) : Engine where
  gl := none
  program := none
  meshBuffers := none
  config := mergeConfig DEFAULT_CONFIG p
  isRunning := false
  animationFrameId := none
  startTime := 0

/-- `start()`: warn and do nothing when already running; otherwise set
the running flag, record the start timestamp and schedule a frame. -/
def startM (now : ℚ) (frameId : ℕ) (e : Engine) : Engine × List String :=
  if e.isRunning then (e, ["Renderer already running"])
  else
    ({ e with
        isRunning := true
        startTime := now
        animationFrameId := some frameId },
      ["Starting gradient animation..."])

/-- `stop()`: warn and do nothing when not running; otherwise clear the
running flag and cancel the pending frame. -/
def stopM (e : Engine) : Engine × List String :=
  if e.isRunning then
    ({ e with isRunning := false, animationFrameId := none },
      ["Stopping gradient animation..."])
  else (e, ["Renderer not running"])

/-- `updateConfig(config)`: `this.config = { ...this.config, ...config }` and
nothing else. -/
def updateConfigM (p : PartialGradientConfig) (e : Engine) : Engine :=
  { e with config := mergeConfig e.config p }

/-- One invocation of the `render` callback at `frameTime`: bail out unless
context, buffers and the running flag are all present; otherwise push
uniforms at `(frameTime - startTime) * 0.001` seconds against the current
configuration and reschedule. -/
def renderM (frameTime w h : ℚ) (nextFrameId : ℕ) (u : UniformStore) (e : Engine) :
    Option (Except String UniformStore × Engine) :=
  if e.gl.isSome && e.meshBuffers.isSome && e.isRunning then
    some (updateUniformsStore e.config ((frameTime - e.startTime) * 0.001) w h u,
      { e with animationFrameId := some nextFrameId })
  else none

/-- Outcomes of the fallible platform primitives used by `initialize`:
context acquisition, the two shader compilations, program linking, buffer
creation, plus the canvas presence and display size. -/
structure InitEnv where
  canvasOk : Bool
  contextOk : Bool
  vertexShaderOk : Bool
  fragmentShaderOk : Bool
  linkOk : Bool
  buffersOk : Bool
  canvasWidth : ℚ
  canvasHeight : ℚ
deriving DecidableEq

/-- `initialize()`, step by step in source order: canvas check, context
acquisition, shader compilation, linking, buffer creation — each failure
logs and returns `false` — then the initial sizing and the uniform push at
time 0, whose color parsing is the one thing that can throw
(`Except.error`). -/
def initializeE (env : InitEnv) (e : Engine) :
    Except String (Bool × Engine × List String) :=
  if env.canvasOk = false then .ok (false, e, ["Canvas element not found"])
  else if env.contextOk = false then
    .ok (false, e, ["WebGL not supported or context creation failed"])
  else
    if (env.vertexShaderOk && env.fragmentShaderOk) = false then
      .ok (false, { e with gl := some 0 }, ["Failed to compile shaders"])
    else if env.linkOk = false then
      .ok (false, { e with gl := some 0 }, ["Failed to create shader program"])
    else if env.buffersOk = false then
      .ok (false, { e with gl := some 0, program := some 1 },
        ["Failed to create mesh buffers"])
    else
      match updateUniformsStore e.config 0 env.canvasWidth env.canvasHeight
        initialUniformStore with
      | .error m => .error m
      | .ok _ =>
        .ok (true, { e with gl := some 0, program := some 1, meshBuffers := some 2 },
          ["Gradient renderer initialized successfully"])

/-- The engine used by the C10 witness: initialised handles, running. -/
def runningEngine : Engine :=
  { mkRenderer {} with gl := some 0, meshBuffers := some 2, isRunning := true }

/-- A configuration equal to `DEFAULT_CONFIG` except that the seventh color
(index 6, beyond the shader's six slots) is the malformed string `"red"`. -/
def badSeventhConfig : GradientConfig :=
  { DEFAULT_CONFIG with
    colors := ["#13ffe3", "#6B2FD8", "#9B7FD8", "#4316d3", "#2916C7", "#00A3CC",
      "red", "#1e2635"] }

/-- A configuration equal to `DEFAULT_CONFIG` except that the seventh color
(index 6) is a different valid color. -/
def altSeventhConfig : GradientConfig :=
  { DEFAULT_CONFIG with
    colors := ["#13ffe3", "#6B2FD8", "#9B7FD8", "#4316d3", "#2916C7", "#00A3CC",
      "#ffffff", "#1e2635"] }

/-- A configuration with only three colors. -/
def threeColorConfig : GradientConfig :=
  { DEFAULT_CONFIG with colors := ["#13ffe3", "#6B2FD8", "#9B7FD8"] }

/-- A valid all-black configuration: six parsable colors `"#000000"`, the
default cycle parameters, and zero grain so the film-grain term vanishes. -/
def blackConfig : GradientConfig :=
  { DEFAULT_CONFIG with
    colors := ["#000000", "#000000", "#000000", "#000000", "#000000", "#000000"]
    grainIntensity := 0 }

/-- The uniform store produced by pushing `blackConfig` at time `t` on an
800 x 600 canvas: all six color slots are black. -/
def blackStore (t : ℚ) : UniformStore where
  time := t
  resolutionX := 800
  resolutionY := 600
  cycleSpeed := 4.5
  grainIntensity := 0
  color1 := zeroRGB
  color2 := zeroRGB
  color3 := zeroRGB
  color4 := zeroRGB
  color5 := zeroRGB
  color6 := zeroRGB

/-- The radial-glow part of the fragment shader output: the three moving
glows, exactly as `main` computes them from the uniforms and the fragment
coordinate. -/
noncomputable def radialGlow (u : Uniforms) (fragCoord : ℝ × ℝ) : ℝ :=
  let uv1 := fragCoord.1 / u.resolutionX
  let uv2 := fragCoord.2 / u.resolutionY
  let slowTime := u.time / u.cycleSpeed
  let fastTime := slowTime * 2.5
  let glow1 := 1 - glslSmoothstep 0 1.5 (glslDistance (uv1, uv2)
    (0.5 + Real.sin (slowTime * 1) * 0.35, 0.7 + Real.cos (slowTime * 0.8) * 0.25))
  let glow2 := 1 - glslSmoothstep 0 1.8 (glslDistance (uv1, uv2)
    (0.5 + Real.sin (slowTime * 1.4) * 0.30, 0.3 + Real.cos (slowTime * 1.1) * 0.20))
  let glow3 := 1 - glslSmoothstep 0 1.2 (glslDistance (uv1, uv2)
    (0.5 + Real.sin (fastTime * 0.6) * 0.20, 0.5 + Real.cos (fastTime * 0.7) * 0.15))
  glow1 * 0.12 + glow2 * 0.10 + glow3 * 0.06

/-- The claim's approximate-periodicity property at tolerance `tol`, written
from the claim for comparison with the shader: for every configuration whose
uniform pushes succeed, every canvas, every time `t`, and every pixel of the
canvas, the red channel of the shader output under the uniforms pushed at `t`
and at `t + fullCycleDuration` differs by at most `tol`. -/
def approxPeriodicClaim (tol : ℝ) : Prop :=
  ∀ (cfg : GradientConfig) (t w h : ℚ) (u₁ u₂ : UniformStore) (p : ℝ × ℝ),
    updateUniformsStore cfg t w h initialUniformStore = Except.ok u₁ →
    updateUniformsStore cfg (t + cfg.fullCycleDuration) w h initialUniformStore =
      Except.ok u₂ →
    0 ≤ p.1 → p.1 ≤ (w : ℝ) → 0 ≤ p.2 → p.2 ≤ (h : ℝ) →
    |(fragmentMain (toUniforms u₁) p).r - (fragmentMain (toUniforms u₂) p).r| ≤ tol

/-! ## Theorems -/
theorem hexDigitVal_le (c : Char) (h : isHexDigit c = true) : hexDigitVal c ≤ 15 := by
  simp only [isHexDigit, Bool.or_eq_true, Bool.and_eq_true, decide_eq_true_eq] at h
  unfold hexDigitVal
  split
  · omega
  · split <;> omega

theorem hexByte_le (c1 c2 : Char) (h1 : isHexDigit c1 = true)
    (h2 : isHexDigit c2 = true) : hexByte c1 c2 ≤ 255 := by
  have := hexDigitVal_le c1 h1
  have := hexDigitVal_le c2 h2
  unfold hexByte
  omega

theorem hexDigit_ne_hash (c : Char) (h : isHexDigit c = true) : ¬(c = '#') := by
  intro hc
  subst hc
  simp [isHexDigit] at h

theorem stripHash_cases (cs : List Char) :
    cs = stripHash cs ∨ cs = '#' :: stripHash cs := by
  cases cs with
  | nil => left; rfl
  | cons c rest =>
    by_cases hc : c = '#'
    · right; simp [stripHash, hc]
    · left; simp [stripHash, hc]

/-- Under the pattern, `stripHash` exposes exactly the six digit characters. -/
theorem stripHash_of_spec (s : String) (h : hexPatternSpec s) :
    ∃ c1 c2 c3 c4 c5 c6 : Char,
      stripHash s.data = [c1, c2, c3, c4, c5, c6] ∧
      (isHexDigit c1 && isHexDigit c2 && isHexDigit c3 && isHexDigit c4 &&
        isHexDigit c5 && isHexDigit c6) = true := by
  obtain ⟨c1, c2, c3, c4, c5, c6, hdata, hhex⟩ := h
  refine ⟨c1, c2, c3, c4, c5, c6, ?_, hhex⟩
  have h1 : isHexDigit c1 = true := by
    simp only [Bool.and_eq_true] at hhex
    exact hhex.1.1.1.1.1
  rcases hdata with hd | hd
  · rw [hd]
    simp [stripHash, hexDigit_ne_hash c1 h1]
  · rw [hd]
    simp [stripHash]

/-- Success of `hexToRGB` under the pattern, with the exact channel values. -/
theorem hexToRGB_eq_of_digits (s : String) (c1 c2 c3 c4 c5 c6 : Char)
    (hl : stripHash s.data = [c1, c2, c3, c4, c5, c6])
    (hhex : (isHexDigit c1 && isHexDigit c2 && isHexDigit c3 && isHexDigit c4 &&
      isHexDigit c5 && isHexDigit c6) = true) :
    hexToRGB s = .ok ⟨(hexByte c1 c2 : ℚ) / 255, (hexByte c3 c4 : ℚ) / 255,
      (hexByte c5 c6 : ℚ) / 255⟩ ∧
    encodedBytes s = some (hexByte c1 c2, hexByte c3 c4, hexByte c5 c6) := by
  constructor
  · unfold hexToRGB
    rw [hl]
    simp [hhex]
  · unfold encodedBytes
    rw [hl]
    simp [hhex]

theorem hexToRGB_ok_iff (s : String) :
    (∃ c, hexToRGB s = .ok c) ↔ hexPatternSpec s := by
  constructor
  · rintro ⟨c, hc⟩
    unfold hexToRGB at hc
    split at hc
    · rename_i c1 c2 c3 c4 c5 c6 heq
      split at hc
      · rename_i hhex
        refine ⟨c1, c2, c3, c4, c5, c6, ?_, hhex⟩
        rcases stripHash_cases s.data with h | h
        · left; rw [h, heq]
        · right; rw [h, heq]
      · exact absurd hc (by simp)
    · exact absurd hc (by simp)
  · intro h
    obtain ⟨c1, c2, c3, c4, c5, c6, hl, hhex⟩ := stripHash_of_spec s h
    exact ⟨_, (hexToRGB_eq_of_digits s c1 c2 c3 c4 c5 c6 hl hhex).1⟩

theorem jsRound_natCast (k : ℕ) : jsRound (k : ℚ) = k := by
  unfold jsRound
  rw [Int.floor_eq_iff]
  constructor
  · push_cast
    linarith
  · push_cast
    linarith

/-- Claim C2: for every string matching the 6-hex-digit pattern, `hexToRGB`
succeeds with channels in `[0, 1]`, and scaling each channel by 255 and
rounding recovers the three encoded byte values. -/
theorem hexToRGB_round_trip (s : String) (h : hexPatternSpec s) :
    ∃ (c : RGB ℚ) (b1 b2 b3 : ℕ),
      hexToRGB s = .ok c ∧ encodedBytes s = some (b1, b2, b3) ∧
      0 ≤ c.r ∧ c.r ≤ 1 ∧ 0 ≤ c.g ∧ c.g ≤ 1 ∧ 0 ≤ c.b ∧ c.b ≤ 1 ∧
      jsRound (c.r * 255) = b1 ∧ jsRound (c.g * 255) = b2 ∧
      jsRound (c.b * 255) = b3 := by
  obtain ⟨c1, c2, c3, c4, c5, c6, hl, hhex⟩ := stripHash_of_spec s h
  obtain ⟨hok, henc⟩ := hexToRGB_eq_of_digits s c1 c2 c3 c4 c5 c6 hl hhex
  simp only [Bool.and_eq_true] at hhex
  obtain ⟨⟨⟨⟨⟨h1, h2⟩, h3⟩, h4⟩, h5⟩, h6⟩ := hhex
  have hb1 := hexByte_le c1 c2 h1 h2
  have hb2 := hexByte_le c3 c4 h3 h4
  have hb3 := hexByte_le c5 c6 h5 h6
  refine ⟨_, hexByte c1 c2, hexByte c3 c4, hexByte c5 c6, hok, henc,
    ?_, ?_, ?_, ?_, ?_, ?_, ?_, ?_, ?_⟩
  · positivity
  · rw [div_le_one (by norm_num)]
    exact_mod_cast hb1
  · positivity
  · rw [div_le_one (by norm_num)]
    exact_mod_cast hb2
  · positivity
  · rw [div_le_one (by norm_num)]
    exact_mod_cast hb3
  · rw [div_mul_cancel₀ _ (by norm_num : (255 : ℚ) ≠ 0)]
    exact jsRound_natCast _
  · rw [div_mul_cancel₀ _ (by norm_num : (255 : ℚ) ≠ 0)]
    exact jsRound_natCast _
  · rw [div_mul_cancel₀ _ (by norm_num : (255 : ℚ) ≠ 0)]
    exact jsRound_natCast _

/-- Witness for C2 at the concrete palette color `#13ffe3`. -/
theorem hexToRGB_round_trip_instance :
    hexPatternSpec "#13ffe3" ∧
    (∃ (c : RGB ℚ) (b1 b2 b3 : ℕ),
      hexToRGB "#13ffe3" = .ok c ∧ encodedBytes "#13ffe3" = some (b1, b2, b3) ∧
      0 ≤ c.r ∧ c.r ≤ 1 ∧ 0 ≤ c.g ∧ c.g ≤ 1 ∧ 0 ≤ c.b ∧ c.b ≤ 1 ∧
      jsRound (c.r * 255) = b1 ∧ jsRound (c.g * 255) = b2 ∧
      jsRound (c.b * 255) = b3) := by
  have hs : hexPatternSpec "#13ffe3" :=
    ⟨'1', '3', 'f', 'f', 'e', '3', Or.inr (by decide), by decide⟩
  exact ⟨hs, hexToRGB_round_trip "#13ffe3" hs⟩

/-- Claim C6: `hexToRGB` succeeds exactly on strings matching
`#?[0-9a-fA-F]{6}` and fails with the `Invalid hex color` error otherwise; in
particular it rejects `"red"`, `"#12345"` and `"#1234567"`. -/
theorem hexToRGB_rejects_malformed :
    (∀ s : String, (∃ c, hexToRGB s = .ok c) ↔ hexPatternSpec s) ∧
    hexToRGB "red" = .error "Invalid hex color: red" ∧
    hexToRGB "#12345" = .error "Invalid hex color: #12345" ∧
    hexToRGB "#1234567" = .error "Invalid hex color: #1234567" := by
  refine ⟨hexToRGB_ok_iff, ?_, ?_, ?_⟩ <;> rfl

/-- Witness for C6: the iff applied at the well-formed string `13ffe3`. -/
theorem hexToRGB_rejects_malformed_instance :
    ∃ c, hexToRGB "13ffe3" = .ok c :=
  (hexToRGB_rejects_malformed.1 "13ffe3").mpr
    ⟨'1', '3', 'f', 'f', 'e', '3', Or.inl (by decide), by decide⟩

/-- Claim C9 (amended): under exact real/rational arithmetic the
`interpolateColor` formula `c1 + (c2 - c1) * t` recovers `c1` at `t = 0` and
`c2` at `t = 1`, per channel. -/
theorem interpolateColor_endpoints (c1 c2 : RGB ℚ) :
    interpolateColor c1 c2 0 = c1 ∧ interpolateColor c1 c2 1 = c2 := by
  cases c1
  cases c2
  constructor <;> simp [interpolateColor]

theorem floorLog2_eval_lt_one (x : ℚ) (m k : ℕ)
    (h1 : ¬1 ≤ x) (h2 : ⌊x⁻¹⌋ = (m : ℤ)) (h3 : natLog2 m = k)
    (h4 : ¬x * 2 ^ k = 1) :
    floorLog2 x = -(k : ℤ) - 1 := by
  unfold floorLog2
  rw [if_neg h1, h2]
  simp only [Int.toNat_natCast, h3]
  rw [if_neg h4]

theorem f64round_eval_pos (x r : ℚ) (e m : ℤ)
    (hx0 : ¬x = 0) (hxneg : ¬x < 0)
    (he : floorLog2 x = e)
    (hm : roundMantissa (x * pow2z (52 - e)) = m)
    (hr : (m : ℚ) * pow2z (e - 52) = r) :
    f64round x = r := by
  unfold f64round
  rw [if_neg hx0, if_neg hxneg, he, hm, hr]

theorem roundMantissa_eval_down (scaled : ℚ) (n : ℤ)
    (hn : ⌊scaled⌋ = n) (hlt : scaled - n < 1 / 2) :
    roundMantissa scaled = n := by
  unfold roundMantissa
  rw [hn, if_pos hlt]

theorem roundMantissa_eval_up (scaled : ℚ) (n : ℤ)
    (hn : ⌊scaled⌋ = n) (hge : ¬scaled - n < 1 / 2) (hgt : 1 / 2 < scaled - n) :
    roundMantissa scaled = n + 1 := by
  unfold roundMantissa
  rw [hn, if_neg hge, if_pos hgt]

theorem roundMantissa_eval_tie_even (scaled : ℚ) (n : ℤ)
    (hn : ⌊scaled⌋ = n) (hge : ¬scaled - n < 1 / 2) (hng : ¬1 / 2 < scaled - n)
    (heven : n % 2 = 0) :
    roundMantissa scaled = n := by
  unfold roundMantissa
  rw [hn, if_neg hge, if_neg hng, if_pos heven]

theorem pow2z_52_neg8 : pow2z (52 - (-8 : ℤ)) = (2 : ℚ) ^ 60 := by
  norm_num [pow2z, show Int.toNat 55 = 55 from by decide, show Int.toNat 60 = 60 from by decide]

theorem pow2z_52_neg3 : pow2z (52 - (-3 : ℤ)) = (2 : ℚ) ^ 55 := by
  norm_num [pow2z, show Int.toNat 55 = 55 from by decide, show Int.toNat 60 = 60 from by decide]

theorem f64round_one_div_255 :
    f64round (1 / 255 : ℚ) = 282578800148737 / 72057594037927936 := by
  apply f64round_eval_pos _ _ (-8) 4521260802379792
  · norm_num
  · norm_num
  · rw [floorLog2_eval_lt_one _ 255 7 (by norm_num)
      (by norm_num [Int.floor_eq_iff]) rfl (by norm_num)]
    norm_num
  · rw [pow2z_52_neg8]
    exact roundMantissa_eval_down _ 4521260802379792
      (by norm_num [Int.floor_eq_iff]) (by norm_num)
  · norm_num [pow2z, show Int.toNat 55 = 55 from by decide, show Int.toNat 60 = 60 from by decide]

theorem f64round_33_div_255 :
    f64round (33 / 255 : ℚ) = 4662550202454161 / 36028797018963968 := by
  apply f64round_eval_pos _ _ (-3) 4662550202454161
  · norm_num
  · norm_num
  · rw [floorLog2_eval_lt_one _ 7 2 (by norm_num)
      (by norm_num [Int.floor_eq_iff]) rfl (by norm_num)]
    norm_num
  · rw [pow2z_52_neg3]
    rw [roundMantissa_eval_up _ 4662550202454160
      (by norm_num [Int.floor_eq_iff]) (by norm_num) (by norm_num)]
    norm_num
  · norm_num [pow2z, show Int.toNat 55 = 55 from by decide, show Int.toNat 60 = 60 from by decide]

theorem f64round_sub_step :
    f64round ((4662550202454161 : ℚ) / 36028797018963968 -
        282578800148737 / 72057594037927936) =
      282578800148737 / 2251799813685248 := by
  apply f64round_eval_pos _ _ (-3) 4521260802379792
  · norm_num
  · norm_num
  · rw [floorLog2_eval_lt_one _ 7 2 (by norm_num)
      (by norm_num [Int.floor_eq_iff]) rfl (by norm_num)]
    norm_num
  · rw [pow2z_52_neg3]
    exact roundMantissa_eval_tie_even _ 4521260802379792
      (by norm_num [Int.floor_eq_iff]) (by norm_num) (by norm_num) (by norm_num)
  · norm_num [pow2z, show Int.toNat 55 = 55 from by decide, show Int.toNat 60 = 60 from by decide]

theorem f64round_mul_one_step :
    f64round ((282578800148737 : ℚ) / 2251799813685248 * 1) =
      282578800148737 / 2251799813685248 := by
  apply f64round_eval_pos _ _ (-3) 4521260802379792
  · norm_num
  · norm_num
  · rw [floorLog2_eval_lt_one _ 7 2 (by norm_num)
      (by norm_num [Int.floor_eq_iff]) rfl (by norm_num)]
    norm_num
  · rw [pow2z_52_neg3]
    exact roundMantissa_eval_down _ 4521260802379792
      (by norm_num [Int.floor_eq_iff]) (by norm_num)
  · norm_num [pow2z, show Int.toNat 55 = 55 from by decide, show Int.toNat 60 = 60 from by decide]

theorem f64round_add_step :
    f64round ((282578800148737 : ℚ) / 72057594037927936 +
        282578800148737 / 2251799813685248) =
      291409387653385 / 2251799813685248 := by
  apply f64round_eval_pos _ _ (-3) 4662550202454160
  · norm_num
  · norm_num
  · rw [floorLog2_eval_lt_one _ 7 2 (by norm_num)
      (by norm_num [Int.floor_eq_iff]) rfl (by norm_num)]
    norm_num
  · rw [pow2z_52_neg3]
    exact roundMantissa_eval_tie_even _ 4662550202454160
      (by norm_num [Int.floor_eq_iff]) (by norm_num) (by norm_num) (by norm_num)
  · norm_num [pow2z, show Int.toNat 55 = 55 from by decide, show Int.toNat 60 = 60 from by decide]

/-- Claim C9 (counterexample): under binary64 arithmetic
`interpolateColor(a, b, 1)` does not equal `b` exactly.  The channels are the
binary64 numbers nearest to `1/255` and `33/255` (exactly the stored values
of channels parsed from hex bytes `0x01` and `0x21`): the subtraction
`b - a` and the final addition both hit round-to-even ties and the result
lands one ulp below `b`. -/
theorem interpolateColor_f64_one_ne :
    (interpolateColorF64
        ⟨f64round (1 / 255), f64round (1 / 255), f64round (1 / 255)⟩
        ⟨f64round (33 / 255), f64round (33 / 255), f64round (33 / 255)⟩ 1).r ≠
      f64round (33 / 255) := by
  simp only [interpolateColorF64, f64add, f64sub, f64mul,
    f64round_one_div_255, f64round_33_div_255]
  rw [f64round_sub_step, f64round_mul_one_step, f64round_add_step]
  norm_num

theorem glslMod_one (t : ℚ) : glslMod t 1 = Int.fract t := by
  unfold glslMod
  rw [div_one, one_mul]
  exact Int.self_sub_floor t

theorem glslFract_eq_fract (x : ℚ) : glslFract x = Int.fract x := rfl

/-- Claim C3: `blendColors` realises the closed-loop palette of 6 equally
spaced stops (segment index the integer part of `6 fract t`, linear
interpolation by the fractional part, segment 5 wrapping from `color6` back
to `color1`); moreover `blendColors 0 = color1` and `blendColors` is
1-periodic. -/
theorem blendColors_closed_loop (c1 c2 c3 c4 c5 c6 : RGB ℚ) (t : ℚ) :
    blendColors c1 c2 c3 c4 c5 c6 t = closedLoopBlend c1 c2 c3 c4 c5 c6 t ∧
    blendColors c1 c2 c3 c4 c5 c6 0 = c1 ∧
    blendColors c1 c2 c3 c4 c5 c6 (t + 1) = blendColors c1 c2 c3 c4 c5 c6 t := by
  refine ⟨?_, ?_, ?_⟩
  · have hw0 : 0 ≤ Int.fract t := Int.fract_nonneg t
    have hw1 : Int.fract t < 1 := Int.fract_lt_one t
    simp only [blendColors, closedLoopBlend, glslMod_one, glslFract_eq_fract]
    have h0 : (0 : ℤ) ≤ ⌊Int.fract t * 6⌋ := Int.floor_nonneg.mpr (by positivity)
    have h6 : ⌊Int.fract t * 6⌋ < 6 := Int.floor_lt.mpr (by push_cast; linarith)
    set n := ⌊Int.fract t * 6⌋ with hn
    interval_cases n <;>
      simp only [mixRGB, interpolateColor, glslMix, paletteStop, RGB.mk.injEq] <;>
      norm_num <;>
      refine ⟨by ring, by ring, by ring⟩
  · cases c1
    cases c2
    simp [blendColors, glslMod_one, glslFract_eq_fract, mixRGB, glslMix]
  · simp only [blendColors, glslMod_one, Int.fract_add_one]

theorem hexToRGB_of_valid (s : String) (h : hexValid s = true) :
    hexToRGB s = .ok (hexRGBval s) := by
  unfold hexValid at h
  unfold hexRGBval
  cases hc : hexToRGB s with
  | ok c => simp [hc]
  | error m => rw [hc] at h; simp at h

theorem mapHexToRGB_eq_map (l : List String) (h : ∀ s ∈ l, hexValid s = true) :
    mapHexToRGB l = .ok (l.map hexRGBval) := by
  induction l with
  | nil => rfl
  | cons s rest ih =>
    have hs := hexToRGB_of_valid s (h s (by simp))
    have hr := ih (fun x hx => h x (by simp [hx]))
    simp [mapHexToRGB, hs, hr]

theorem mapHexToRGB_error_of_invalid (l : List String)
    (h : ∃ s ∈ l, hexValid s = false) :
    ∃ m, mapHexToRGB l = .error m := by
  induction l with
  | nil => simp at h
  | cons a rest ih =>
    obtain ⟨s, hs, hbad⟩ := h
    cases hma : hexToRGB a with
    | error m => exact ⟨m, by simp [mapHexToRGB, hma]⟩
    | ok c =>
      have hrest : ∃ x ∈ rest, hexValid x = false := by
        rcases List.mem_cons.mp hs with rfl | hx
        · exfalso
          have : hexValid s = true := by unfold hexValid; rw [hma]
          rw [this] at hbad
          cases hbad
        · exact ⟨s, hx, hbad⟩
      obtain ⟨m, hm⟩ := ih hrest
      exact ⟨m, by simp [mapHexToRGB, hma, hm]⟩

theorem mapHexToRGB_ok_length (l : List String) (cs : List (RGB ℚ))
    (h : mapHexToRGB l = .ok cs) : cs.length = l.length := by
  induction l generalizing cs with
  | nil =>
    simp only [mapHexToRGB] at h
    cases h
    rfl
  | cons a rest ih =>
    simp only [mapHexToRGB] at h
    cases hma : hexToRGB a with
    | error m => rw [hma] at h; cases h
    | ok c =>
      rw [hma] at h
      cases hmr : mapHexToRGB rest with
      | error m => rw [hmr] at h; cases h
      | ok cs' =>
        rw [hmr] at h
        cases h
        simp [ih cs' hmr]

/-- Claim C7 (amended): `updateConfig` is a pure merge that performs no color
validation and cannot fail; a malformed color in the configuration instead
surfaces as an `Invalid hex color` throw from the per-frame uniform push
(`updateUniforms`), the next time colors are parsed. -/
theorem updateConfig_no_validation :
    (∀ (e : Engine) (p : PartialGradientConfig),
      updateConfigM p e = { e with config := mergeConfig e.config p }) ∧
    (∀ (cfg : GradientConfig) (t w h : ℚ) (u : UniformStore),
      (∃ s ∈ cfg.colors, hexValid s = false) →
      ∃ m, updateUniformsStore cfg t w h u = .error m) := by
  constructor
  · intro e p
    rfl
  · intro cfg t w h u hbad
    obtain ⟨m, hm⟩ := mapHexToRGB_error_of_invalid cfg.colors hbad
    exact ⟨m, by simp [updateUniformsStore, hm]⟩

/-- Witness for C7 (amended) at a configuration holding the malformed color
`"red"`. -/
theorem updateConfig_no_validation_witness :
    (updateConfigM { colors := some ["red"] } (mkRenderer {}) =
      { mkRenderer {} with
        config := mergeConfig (mkRenderer {}).config { colors := some ["red"] } }) ∧
    (∃ s ∈ ({ DEFAULT_CONFIG with colors := ["red"] } : GradientConfig).colors,
      hexValid s = false) ∧
    (∃ m, updateUniformsStore { DEFAULT_CONFIG with colors := ["red"] } 0 800 600
      initialUniformStore = .error m) :=
  ⟨updateConfig_no_validation.1 (mkRenderer {}) { colors := some ["red"] },
    ⟨"red", by simp, rfl⟩,
    updateConfig_no_validation.2 _ 0 800 600 initialUniformStore
      ⟨"red", by simp, rfl⟩⟩

/-- Claim C7 (counterexample): `updateConfig` with the malformed color
`"red"` succeeds silently — the merged configuration keeps the bad color and
no error is signalled — and the very next per-frame uniform push throws
`Invalid hex color: red`; validation does not happen at `updateConfig` time
and the per-frame render path does parse colors and does fail. -/
theorem updateConfig_defers_parse_error :
    (updateConfigM { colors := some ["red"] } (mkRenderer {})).config.colors =
      ["red"] ∧
    updateUniformsStore
        (updateConfigM { colors := some ["red"] } (mkRenderer {})).config
        0 800 600 initialUniformStore =
      .error "Invalid hex color: red" := by
  exact ⟨rfl, rfl⟩

/-- Claim C8: `start()` then `stop()` leaves the running flag false, and
`stop()` on a non-running engine changes nothing and merely warns. -/
theorem start_stop_lifecycle :
    ∀ (e : Engine) (now : ℚ) (frameId : ℕ),
      (stopM (startM now frameId e).1).1.isRunning = false ∧
      (e.isRunning = false → stopM e = (e, ["Renderer not running"])) := by
  intro e now frameId
  constructor
  · by_cases h : e.isRunning <;> simp [startM, stopM, h]
  · intro h
    simp [stopM, h]

/-- Witness for C8 on a freshly constructed engine. -/
theorem start_stop_lifecycle_witness :
    (stopM (startM 0 1 (mkRenderer {})).1).1.isRunning = false ∧
    ((mkRenderer {}).isRunning = false ∧
      stopM (mkRenderer {}) = (mkRenderer {}, ["Renderer not running"])) :=
  ⟨(start_stop_lifecycle (mkRenderer {}) 0 1).1,
    rfl, (start_stop_lifecycle (mkRenderer {}) 0 1).2 rfl⟩

/-- Claim C10: `updateConfig(partial)` overrides exactly the supplied fields
(omitted fields keep their prior value, expressed by `Option.getD`), leaves
every other piece of engine state unchanged (handles, running flag, pending
frame, start timestamp), and the very next frame callback pushes uniforms
from the merged configuration, without any stop or restart. -/
theorem updateConfig_merge_semantics :
    ∀ (e : Engine) (p : PartialGradientConfig) (frameTime w h : ℚ) (fid : ℕ)
      (u : UniformStore),
      (updateConfigM p e).config.colors = p.colors.getD e.config.colors ∧
      (updateConfigM p e).config.cycleSpeed =
        p.cycleSpeed.getD e.config.cycleSpeed ∧
      (updateConfigM p e).config.fullCycleDuration =
        p.fullCycleDuration.getD e.config.fullCycleDuration ∧
      (updateConfigM p e).config.enableBreathing =
        p.enableBreathing.getD e.config.enableBreathing ∧
      (updateConfigM p e).config.enableXInversion =
        p.enableXInversion.getD e.config.enableXInversion ∧
      (updateConfigM p e).config.enableGrain =
        p.enableGrain.getD e.config.enableGrain ∧
      (updateConfigM p e).config.grainIntensity =
        p.grainIntensity.getD e.config.grainIntensity ∧
      (updateConfigM p e).config.targetFPS = p.targetFPS.getD e.config.targetFPS ∧
      (updateConfigM p e).gl = e.gl ∧
      (updateConfigM p e).program = e.program ∧
      (updateConfigM p e).meshBuffers = e.meshBuffers ∧
      (updateConfigM p e).isRunning = e.isRunning ∧
      (updateConfigM p e).animationFrameId = e.animationFrameId ∧
      (updateConfigM p e).startTime = e.startTime ∧
      ((e.gl.isSome && e.meshBuffers.isSome && e.isRunning) = true →
        renderM frameTime w h fid u (updateConfigM p e) =
          some (updateUniformsStore (mergeConfig e.config p)
              ((frameTime - e.startTime) * 0.001) w h u,
            { e with
                config := mergeConfig e.config p
                animationFrameId := some fid })) := by
  intro e p frameTime w h fid u
  refine ⟨rfl, rfl, rfl, rfl, rfl, rfl, rfl, rfl, rfl, rfl, rfl, rfl, rfl, rfl, ?_⟩
  intro hrun
  simp [renderM, updateConfigM, hrun]

/-- Witness for C10: on a running engine, a `cycleSpeed` override is merged
and used by the very next frame callback. -/
theorem updateConfig_merge_semantics_witness :
    ((runningEngine.gl.isSome && runningEngine.meshBuffers.isSome &&
      runningEngine.isRunning) = true) ∧
    renderM 16 800 600 2 initialUniformStore
        (updateConfigM { cycleSpeed := some 2 } runningEngine) =
      some (updateUniformsStore
          (mergeConfig runningEngine.config { cycleSpeed := some 2 })
          ((16 - runningEngine.startTime) * 0.001) 800 600 initialUniformStore,
        { runningEngine with
            config := mergeConfig runningEngine.config { cycleSpeed := some 2 }
            animationFrameId := some 2 }) :=
  ⟨rfl,
    (updateConfig_merge_semantics runningEngine { cycleSpeed := some 2 } 16 800 600
        2 initialUniformStore).2.2.2.2.2.2.2.2.2.2.2.2.2.2 rfl⟩

theorem initializeE_all_ok (w h : ℚ) (e : Engine) (st : UniformStore)
    (hst : updateUniformsStore e.config 0 w h initialUniformStore = .ok st) :
    initializeE ⟨true, true, true, true, true, true, w, h⟩ e =
      .ok (true, { e with gl := some 0, program := some 1, meshBuffers := some 2 },
        ["Gradient renderer initialized successfully"]) := by
  unfold initializeE
  simp [hst]

/-- Claim C5: with validly configured colors, `initialize` never throws: it
returns a boolean that is `false` exactly when canvas, context acquisition,
shader compilation, linking or buffer creation failed, and the context and
compile/link failures leave their structured diagnostic in the log. -/
theorem initialize_failure_semantics :
    ∀ (env : InitEnv) (e : Engine),
      (∀ s ∈ e.config.colors, hexValid s = true) →
      ∃ (e' : Engine) (log : List String),
        initializeE env e = .ok (env.canvasOk && env.contextOk &&
          env.vertexShaderOk && env.fragmentShaderOk && env.linkOk &&
          env.buffersOk, e', log) ∧
        (env.canvasOk = true → env.contextOk = false →
          "WebGL not supported or context creation failed" ∈ log) ∧
        (env.canvasOk = true → env.contextOk = true →
          (env.vertexShaderOk && env.fragmentShaderOk) = false →
          "Failed to compile shaders" ∈ log) ∧
        (env.canvasOk = true → env.contextOk = true →
          (env.vertexShaderOk && env.fragmentShaderOk) = true →
          env.linkOk = false → "Failed to create shader program" ∈ log) := by
  intro env e hvalid
  have hmap := mapHexToRGB_eq_map e.config.colors hvalid
  obtain ⟨co, cx, vs, fs, lk, bo, w, h⟩ := env
  cases co <;> cases cx <;> cases vs <;> cases fs <;> cases lk <;> cases bo <;>
    first
    | exact ⟨_, _, rfl, by simp, by simp, by simp⟩
    | · obtain ⟨st, hst⟩ :
          ∃ st, updateUniformsStore e.config 0 w h initialUniformStore = .ok st :=
          ⟨_, by unfold updateUniformsStore; rw [hmap]⟩
        exact ⟨_, _, initializeE_all_ok w h e st hst, by simp, by simp, by simp⟩

/-- Witness for C5: the default engine under an all-success environment
initialises with `true`; under failed context acquisition it still returns
normally, with `false` and the diagnostic logged. -/
theorem initialize_failure_semantics_witness :
    (∀ s ∈ (mkRenderer {}).config.colors, hexValid s = true) ∧
    (∃ e' log, initializeE ⟨true, true, true, true, true, true, 800, 600⟩
      (mkRenderer {}) = .ok (true, e', log)) ∧
    (∃ e' log, initializeE ⟨true, false, true, true, true, true, 800, 600⟩
        (mkRenderer {}) = .ok (false, e', log) ∧
      "WebGL not supported or context creation failed" ∈ log) := by
  have hv : ∀ s ∈ (mkRenderer {}).config.colors, hexValid s = true := by decide
  refine ⟨hv, ?_, ?_⟩
  · obtain ⟨e', log, h1, -, -, -⟩ :=
      initialize_failure_semantics ⟨true, true, true, true, true, true, 800, 600⟩
        (mkRenderer {}) hv
    exact ⟨e', log, h1⟩
  · obtain ⟨e', log, h1, h2, -, -⟩ :=
      initialize_failure_semantics ⟨true, false, true, true, true, true, 800, 600⟩
        (mkRenderer {}) hv
    exact ⟨e', log, h1, h2 rfl rfl⟩

/-- Claim C4 (amended): provided every configured color parses, the uniforms
pushed per frame — and hence the rendered output — depend only on the first
6 entries of `colors` (excess entries beyond index 5 are ignored), and with
fewer than 6 colors the unwritten color slots keep their default zero
value.  (Without the validity proviso the claim fails: a malformed excess
color makes the push throw — see the counterexample.) -/
theorem updateUniforms_six_color_limit :
    (∀ (cfgA cfgB : GradientConfig) (t w h : ℚ) (u : UniformStore),
      (∀ s ∈ cfgA.colors, hexValid s = true) →
      (∀ s ∈ cfgB.colors, hexValid s = true) →
      cfgA.cycleSpeed = cfgB.cycleSpeed →
      cfgA.grainIntensity = cfgB.grainIntensity →
      6 ≤ cfgA.colors.length → 6 ≤ cfgB.colors.length →
      cfgA.colors.take 6 = cfgB.colors.take 6 →
      updateUniformsStore cfgA t w h u = updateUniformsStore cfgB t w h u ∧
      ∀ (stA stB : UniformStore) (pix : ℝ × ℝ),
        updateUniformsStore cfgA t w h u = .ok stA →
        updateUniformsStore cfgB t w h u = .ok stB →
        fragmentMain (toUniforms stA) pix = fragmentMain (toUniforms stB) pix) ∧
    (∀ (cfg : GradientConfig) (t w h : ℚ) (st : UniformStore),
      cfg.colors.length < 6 →
      updateUniformsStore cfg t w h initialUniformStore = .ok st →
      (cfg.colors.length ≤ 0 → st.color1 = zeroRGB) ∧
      (cfg.colors.length ≤ 1 → st.color2 = zeroRGB) ∧
      (cfg.colors.length ≤ 2 → st.color3 = zeroRGB) ∧
      (cfg.colors.length ≤ 3 → st.color4 = zeroRGB) ∧
      (cfg.colors.length ≤ 4 → st.color5 = zeroRGB) ∧
      (cfg.colors.length ≤ 5 → st.color6 = zeroRGB)) := by
  constructor
  · intro cfgA cfgB t w h u hvA hvB hcs hgi hlA hlB htake
    have hidx : ∀ i : ℕ, i < 6 → cfgA.colors[i]? = cfgB.colors[i]? := by
      intro i hi
      rw [← List.getElem?_take_of_lt (l := cfgA.colors) hi, htake,
        List.getElem?_take_of_lt hi]
    have key : updateUniformsStore cfgA t w h u = updateUniformsStore cfgB t w h u := by
      unfold updateUniformsStore
      rw [mapHexToRGB_eq_map cfgA.colors hvA, mapHexToRGB_eq_map cfgB.colors hvB]
      simp only [List.getElem?_map]
      rw [hcs, hgi, hidx 0 (by norm_num), hidx 1 (by norm_num),
        hidx 2 (by norm_num), hidx 3 (by norm_num), hidx 4 (by norm_num),
        hidx 5 (by norm_num)]
    refine ⟨key, ?_⟩
    intro stA stB pix hA hB
    rw [key, hB] at hA
    rw [Except.ok.inj hA]
  · intro cfg t w h st hlen hok
    unfold updateUniformsStore at hok
    cases hmap : mapHexToRGB cfg.colors with
    | error m => rw [hmap] at hok; cases hok
    | ok cs =>
      rw [hmap] at hok
      have hcl : cs.length = cfg.colors.length := mapHexToRGB_ok_length _ _ hmap
      cases hok
      refine ⟨?_, ?_, ?_, ?_, ?_, ?_⟩ <;> intro hle
      · rw [List.getElem?_eq_none_iff.mpr (show cs.length ≤ 0 by omega)]
        rfl
      · rw [List.getElem?_eq_none_iff.mpr (show cs.length ≤ 1 by omega)]
        rfl
      · rw [List.getElem?_eq_none_iff.mpr (show cs.length ≤ 2 by omega)]
        rfl
      · rw [List.getElem?_eq_none_iff.mpr (show cs.length ≤ 3 by omega)]
        rfl
      · rw [List.getElem?_eq_none_iff.mpr (show cs.length ≤ 4 by omega)]
        rfl
      · rw [List.getElem?_eq_none_iff.mpr (show cs.length ≤ 5 by omega)]
        rfl

/-- Claim C4 (counterexample): two configurations that agree on every field
and on colors[0..5] and differ only in the color at index 6 do not always
push identical uniforms, and the excess is not silently ignored: the
per-frame push parses every configured color, so the configuration whose
seventh color is the malformed `"red"` throws `Invalid hex color: red`
while the default configuration pushes successfully. -/
theorem sixColor_excess_not_ignored :
    badSeventhConfig.colors.take 6 = DEFAULT_CONFIG.colors.take 6 ∧
    badSeventhConfig.colors.length = DEFAULT_CONFIG.colors.length ∧
    badSeventhConfig.cycleSpeed = DEFAULT_CONFIG.cycleSpeed ∧
    badSeventhConfig.fullCycleDuration = DEFAULT_CONFIG.fullCycleDuration ∧
    badSeventhConfig.enableBreathing = DEFAULT_CONFIG.enableBreathing ∧
    badSeventhConfig.enableXInversion = DEFAULT_CONFIG.enableXInversion ∧
    badSeventhConfig.enableGrain = DEFAULT_CONFIG.enableGrain ∧
    badSeventhConfig.grainIntensity = DEFAULT_CONFIG.grainIntensity ∧
    badSeventhConfig.targetFPS = DEFAULT_CONFIG.targetFPS ∧
    updateUniformsStore badSeventhConfig 0 800 600 initialUniformStore =
      .error "Invalid hex color: red" ∧
    (∃ st, updateUniformsStore DEFAULT_CONFIG 0 800 600 initialUniformStore =
      .ok st) ∧
    updateUniformsStore badSeventhConfig 0 800 600 initialUniformStore ≠
      updateUniformsStore DEFAULT_CONFIG 0 800 600 initialUniformStore := by
  refine ⟨rfl, rfl, rfl, rfl, rfl, rfl, rfl, rfl, rfl, rfl, ⟨_, rfl⟩, ?_⟩
  intro hcontra
  have h1 : updateUniformsStore badSeventhConfig 0 800 600 initialUniformStore =
      .error "Invalid hex color: red" := rfl
  obtain ⟨st, h2⟩ :
      ∃ st, updateUniformsStore DEFAULT_CONFIG 0 800 600 initialUniformStore =
        .ok st := ⟨_, rfl⟩
  rw [h1, h2] at hcontra
  cases hcontra

/-- Witness for C4 (amended): the default configuration and a valid variant
differing only at index 6 push identical uniforms, and a three-color
configuration leaves slots 4-6 at zero. -/
theorem updateUniforms_six_color_limit_witness :
    ((∀ s ∈ DEFAULT_CONFIG.colors, hexValid s = true) ∧
      (∀ s ∈ altSeventhConfig.colors, hexValid s = true) ∧
      DEFAULT_CONFIG.colors.take 6 = altSeventhConfig.colors.take 6 ∧
      DEFAULT_CONFIG.colors ≠ altSeventhConfig.colors ∧
      updateUniformsStore DEFAULT_CONFIG 0 800 600 initialUniformStore =
        updateUniformsStore altSeventhConfig 0 800 600 initialUniformStore) ∧
    (∃ st, updateUniformsStore threeColorConfig 0 800 600 initialUniformStore =
        .ok st ∧
      st.color4 = zeroRGB ∧ st.color5 = zeroRGB ∧ st.color6 = zeroRGB) := by
  constructor
  · have hvA : ∀ s ∈ DEFAULT_CONFIG.colors, hexValid s = true := by decide
    have hvB : ∀ s ∈ altSeventhConfig.colors, hexValid s = true := by decide
    refine ⟨hvA, hvB, by decide, by decide, ?_⟩
    exact (updateUniforms_six_color_limit.1 DEFAULT_CONFIG altSeventhConfig
      0 800 600 initialUniformStore hvA hvB rfl rfl (by decide) (by decide)
      (by decide)).1
  · obtain ⟨st, hst⟩ :
        ∃ st, updateUniformsStore threeColorConfig 0 800 600 initialUniformStore =
          .ok st := ⟨_, rfl⟩
    have h := updateUniforms_six_color_limit.2 threeColorConfig 0 800 600 st
      (by decide) hst
    exact ⟨st, hst, h.2.2.2.1 (by decide), h.2.2.2.2.1 (by decide),
      h.2.2.2.2.2 (by decide)⟩

section

set_option maxHeartbeats 1000000

/-- Certified bound: the sine of the default-config full-cycle slow time
`25 / 3` is at least `0.87`. -/
theorem sin_25_3_ge : (0.87 : ℝ) ≤ Real.sin (25 / 3) := by
  have hpl := Real.pi_gt_d6
  have hpu := Real.pi_lt_d6
  set z : ℝ := (3 * Real.pi - 25 / 3) / 2 with hz
  clear_value z
  have hzl : (0.5457213 : ℝ) ≤ z := by rw [hz]; linarith
  have hzu : z ≤ 0.5457229 := by rw [hz]; linarith
  have hz1 : |z| ≤ 1 := by rw [abs_le]; constructor <;> linarith
  have hsin := Real.sin_bound hz1
  have hcos := Real.cos_bound hz1
  have habs : |z| = z := abs_of_pos (by linarith)
  rw [habs] at hsin hcos
  have hz2 : z ^ 2 ≤ 0.2978140 := by nlinarith
  have hz3 : z ^ 3 ≤ 0.1625250 := by nlinarith
  have hz4 : z ^ 4 ≤ 0.0886935 := by nlinarith
  have hsz : (0.5140 : ℝ) ≤ Real.sin z := by
    have h := abs_sub_le_iff.mp hsin
    nlinarith [h.1, h.2]
  have hcz : (0.8464 : ℝ) ≤ Real.cos z := by
    have h := abs_sub_le_iff.mp hcos
    nlinarith [h.1, h.2]
  have hprod : (0.5140 : ℝ) * 0.8464 ≤ Real.sin z * Real.cos z :=
    mul_le_mul hsz hcz (by norm_num) (by linarith)
  have key : (0.87 : ℝ) ≤ Real.sin (2 * z) := by
    rw [Real.sin_two_mul]
    nlinarith [hprod]
  have e1 : Real.sin (25 / 3 - 2 * Real.pi) = Real.sin (25 / 3) := Real.sin_sub_two_pi _
  have e2 : (25 / 3 : ℝ) - 2 * Real.pi = Real.pi - 2 * z := by rw [hz]; ring
  have e3 : Real.sin (Real.pi - 2 * z) = Real.sin (2 * z) := Real.sin_pi_sub _
  rw [← e1, e2, e3]
  exact key

/-- Certified bound: `sin (35 / 3)` is at most `-0.775`. -/
theorem sin_35_3_le : Real.sin (35 / 3) ≤ -0.775 := by
  have hpl := Real.pi_gt_d6
  have hpu := Real.pi_lt_d6
  set v : ℝ := (4 * Real.pi - 35 / 3) / 2 with hv
  clear_value v
  have hvl : (0.44985065 : ℝ) ≤ v := by rw [hv]; linarith
  have hvu : v ≤ 0.44985270 := by rw [hv]; linarith
  have hv1 : |v| ≤ 1 := by rw [abs_le]; constructor <;> linarith
  have hsin := Real.sin_bound hv1
  have hcos := Real.cos_bound hv1
  have habs : |v| = v := abs_of_pos (by linarith)
  rw [habs] at hsin hcos
  have hv2 : v ^ 2 ≤ 0.2023680 := by nlinarith
  have hv3 : v ^ 3 ≤ 0.0910370 := by nlinarith
  have hv4 : v ^ 4 ≤ 0.0409535 := by nlinarith
  have hsv : (0.4325 : ℝ) ≤ Real.sin v := by
    have h := abs_sub_le_iff.mp hsin
    nlinarith [h.1, h.2]
  have hcv : (0.8966 : ℝ) ≤ Real.cos v := by
    have h := abs_sub_le_iff.mp hcos
    nlinarith [h.1, h.2]
  have hprod : (0.4325 : ℝ) * 0.8966 ≤ Real.sin v * Real.cos v :=
    mul_le_mul hsv hcv (by norm_num) (by linarith)
  have key : (0.775 : ℝ) ≤ Real.sin (2 * v) := by
    rw [Real.sin_two_mul]
    nlinarith [hprod]
  have e1 : Real.sin (35 / 3 - 2 * Real.pi - 2 * Real.pi) = Real.sin (35 / 3) := by
    rw [Real.sin_sub_two_pi, Real.sin_sub_two_pi]
  have e2 : (35 / 3 : ℝ) - 2 * Real.pi - 2 * Real.pi = -(2 * v) := by rw [hv]; ring
  have e3 : Real.sin (-(2 * v)) = -Real.sin (2 * v) := Real.sin_neg _
  rw [← e1, e2, e3]
  linarith

/-- Certified bound: `cos (55 / 6)` is at most `-0.9664`. -/
theorem cos_55_6_le : Real.cos (55 / 6) ≤ -0.9664 := by
  have hpl := Real.pi_gt_d6
  have hpu := Real.pi_lt_d6
  set y : ℝ := 3 * Real.pi - 55 / 6 with hy
  clear_value y
  have hyl : (0.2581093 : ℝ) ≤ y := by rw [hy]; linarith
  have hyu : y ≤ 0.2581124 := by rw [hy]; linarith
  have hy1 : |y| ≤ 1 := by rw [abs_le]; constructor <;> linarith
  have hcos := Real.cos_bound hy1
  have habs : |y| = y := abs_of_pos (by linarith)
  rw [habs] at hcos
  have hy2 : y ^ 2 ≤ 0.0666221 := by nlinarith
  have hy4 : y ^ 4 ≤ 0.0044386 := by nlinarith
  have hcy : (0.9664 : ℝ) ≤ Real.cos y := by
    have h := abs_sub_le_iff.mp hcos
    nlinarith [h.1, h.2]
  have e1 : Real.cos (55 / 6 - 2 * Real.pi) = Real.cos (55 / 6) := Real.cos_sub_two_pi _
  have e2 : (55 / 6 : ℝ) - 2 * Real.pi = Real.pi - y := by rw [hy]; ring
  have e3 : Real.cos (Real.pi - y) = -Real.cos y := Real.cos_pi_sub _
  rw [← e1, e2, e3]
  linarith

/-- Certified bound: `cos (175 / 12)` is at most `-0.4212`. -/
theorem cos_175_12_le : Real.cos (175 / 12) ≤ -0.4212 := by
  have hpl := Real.pi_gt_d6
  have hpu := Real.pi_lt_d6
  set v : ℝ := (5 * Real.pi - 175 / 12) / 2 with hv
  clear_value v
  have hvl : (0.5623133 : ℝ) ≤ v := by rw [hv]; linarith
  have hvu : v ≤ 0.5623159 := by rw [hv]; linarith
  have hv1 : |v| ≤ 1 := by rw [abs_le]; constructor <;> linarith
  have hsin := Real.sin_bound hv1
  have habs : |v| = v := abs_of_pos (by linarith)
  rw [habs] at hsin
  have hv0 : (0 : ℝ) ≤ v := by linarith
  have h2l : (0.3161962 : ℝ) ≤ v * v :=
    le_trans (by norm_num) (mul_le_mul hvl hvl (by norm_num) hv0)
  have h2u : v * v ≤ 0.3161992 :=
    le_trans (mul_le_mul hvu hvu hv0 (by norm_num)) (by norm_num)
  have hvv0 : (0 : ℝ) ≤ v * v := mul_nonneg hv0 hv0
  have hv3l : (0.177801 : ℝ) ≤ v ^ 3 := by
    have h3 : (0.3161962 : ℝ) * 0.5623133 ≤ (v * v) * v :=
      mul_le_mul h2l hvl (by norm_num) hvv0
    have he : (v * v) * v = v ^ 3 := by ring
    have hc : (0.177801 : ℝ) ≤ 0.3161962 * 0.5623133 := by norm_num
    linarith
  have hv4 : v ^ 4 ≤ 0.0999825 := by
    have h4 : (v * v) * (v * v) ≤ 0.3161992 * 0.3161992 :=
      mul_le_mul h2u h2u hvv0 (by norm_num)
    have he : (v * v) * (v * v) = v ^ 4 := by ring
    have hc : (0.3161992 : ℝ) * 0.3161992 ≤ 0.0999825 := by norm_num
    linarith
  have hsv : Real.sin v ≤ 0.5379 := by
    have h := abs_sub_le_iff.mp hsin
    nlinarith [h.1, h.2, hv3l, hv4]
  have hsv0 : 0 ≤ Real.sin v :=
    Real.sin_nonneg_of_nonneg_of_le_pi (by linarith) (by linarith)
  have hcy : (0.4212 : ℝ) ≤ Real.cos (2 * v) := by
    have hid : Real.cos (2 * v) = 1 - 2 * Real.sin v ^ 2 := by
      linarith [Real.cos_two_mul' v, Real.sin_sq_add_cos_sq v]
    rw [hid]
    nlinarith [hsv, hsv0]
  have e1 : Real.cos (175 / 12 - 2 * Real.pi - 2 * Real.pi) = Real.cos (175 / 12) := by
    rw [Real.cos_sub_two_pi, Real.cos_sub_two_pi]
  have e2 : (175 / 12 : ℝ) - 2 * Real.pi - 2 * Real.pi = Real.pi - 2 * v := by
    rw [hv]; ring
  have e3 : Real.cos (Real.pi - 2 * v) = -Real.cos (2 * v) := Real.cos_pi_sub _
  rw [← e1, e2, e3]
  linarith

end

/-- Lower bound on a GLSL distance from a lower bound on the squared
coordinate differences. -/
theorem glslDistance_ge (a b : ℝ × ℝ) (c : ℝ) (hc : 0 ≤ c)
    (h : c ^ 2 ≤ (a.1 - b.1) ^ 2 + (a.2 - b.2) ^ 2) : c ≤ glslDistance a b := by
  unfold glslDistance
  calc c = Real.sqrt (c ^ 2) := (Real.sqrt_sq hc).symm
    _ ≤ _ := Real.sqrt_le_sqrt h

/-- Upper bound on a GLSL distance from an upper bound on the squared
coordinate differences. -/
theorem glslDistance_le (a b : ℝ × ℝ) (c : ℝ) (hc : 0 ≤ c)
    (h : (a.1 - b.1) ^ 2 + (a.2 - b.2) ^ 2 ≤ c ^ 2) : glslDistance a b ≤ c := by
  unfold glslDistance
  calc Real.sqrt ((a.1 - b.1) ^ 2 + (a.2 - b.2) ^ 2) ≤ Real.sqrt (c ^ 2) :=
      Real.sqrt_le_sqrt h
    _ = c := Real.sqrt_sq hc

/-- The smoothstep cubic `p * p * (3 - 2 * p)` is monotone on `[0, 1]`. -/
theorem smoothstepPoly_mono (q p : ℝ) (h0 : 0 ≤ q) (hqp : q ≤ p) (hp1 : p ≤ 1) :
    q * q * (3 - 2 * q) ≤ p * p * (3 - 2 * p) := by
  nlinarith [mul_nonneg h0 (sub_nonneg.mpr hqp), sq_nonneg (p - q), sq_nonneg (p + q),
    mul_nonneg (sub_nonneg.mpr hqp) (sub_nonneg.mpr hp1),
    mul_nonneg (mul_nonneg h0 h0) (sub_nonneg.mpr hp1)]

/-- Lower bound for `smoothstep 0 e1` at an argument at least `q * e1`. -/
theorem glslSmoothstep_ge (e1 x q : ℝ) (he : 0 < e1) (hq0 : 0 ≤ q) (hq1 : q ≤ 1)
    (hx : q * e1 ≤ x) : q * q * (3 - 2 * q) ≤ glslSmoothstep 0 e1 x := by
  unfold glslSmoothstep glslClamp
  have hqx : q ≤ (x - 0) / (e1 - 0) := by
    rw [sub_zero, sub_zero, le_div_iff₀ he]
    linarith
  have h2 : q ≤ min (max ((x - 0) / (e1 - 0)) 0) 1 :=
    le_min (le_trans hqx (le_max_left _ _)) hq1
  have h3 : min (max ((x - 0) / (e1 - 0)) 0) 1 ≤ 1 := min_le_right _ _
  exact smoothstepPoly_mono q _ hq0 h2 h3

/-- Upper bound for `smoothstep 0 e1` at an argument at most `q * e1`. -/
theorem glslSmoothstep_le (e1 x q : ℝ) (he : 0 < e1) (hq0 : 0 ≤ q) (hq1 : q ≤ 1)
    (hx : x ≤ q * e1) : glslSmoothstep 0 e1 x ≤ q * q * (3 - 2 * q) := by
  unfold glslSmoothstep glslClamp
  have hdq : (x - 0) / (e1 - 0) ≤ q := by
    rw [sub_zero, sub_zero, div_le_iff₀ he]
    linarith
  have hp0 : (0 : ℝ) ≤ min (max ((x - 0) / (e1 - 0)) 0) 1 :=
    le_min (le_max_right _ _) zero_le_one
  have hpq : min (max ((x - 0) / (e1 - 0)) 0) 1 ≤ q :=
    le_trans (min_le_left _ _) (max_le hdq hq0)
  exact smoothstepPoly_mono _ q hp0 hpq hq1

/-- Upper bound on a glow term of the shader. -/
theorem glow_le (e1 : ℝ) (a b : ℝ × ℝ) (q : ℝ) (he : 0 < e1) (hq0 : 0 ≤ q)
    (hq1 : q ≤ 1) (hd : (q * e1) ^ 2 ≤ (a.1 - b.1) ^ 2 + (a.2 - b.2) ^ 2) :
    1 - glslSmoothstep 0 e1 (glslDistance a b) ≤ 1 - q * q * (3 - 2 * q) := by
  have h1 : q * e1 ≤ glslDistance a b :=
    glslDistance_ge a b (q * e1) (mul_nonneg hq0 he.le) hd
  have h2 := glslSmoothstep_ge e1 (glslDistance a b) q he hq0 hq1 h1
  linarith

/-- Lower bound on a glow term of the shader. -/
theorem glow_ge (e1 : ℝ) (a b : ℝ × ℝ) (q : ℝ) (he : 0 < e1) (hq0 : 0 ≤ q)
    (hq1 : q ≤ 1) (hd : (a.1 - b.1) ^ 2 + (a.2 - b.2) ^ 2 ≤ (q * e1) ^ 2) :
    1 - q * q * (3 - 2 * q) ≤ 1 - glslSmoothstep 0 e1 (glslDistance a b) := by
  have h1 : glslDistance a b ≤ q * e1 :=
    glslDistance_le a b (q * e1) (mul_nonneg hq0 he.le) hd
  have h2 := glslSmoothstep_le e1 (glslDistance a b) q he hq0 hq1 h1
  linarith

/-- With six black colors the palette is identically black. -/
theorem blendColors_black (t : ℝ) :
    blendColors (⟨0, 0, 0⟩ : RGB ℝ) ⟨0, 0, 0⟩ ⟨0, 0, 0⟩ ⟨0, 0, 0⟩ ⟨0, 0, 0⟩ ⟨0, 0, 0⟩ t =
      ⟨0, 0, 0⟩ := by
  simp only [blendColors]
  split_ifs <;> simp [mixRGB, glslMix]

/-- With black colors and zero grain, the fragment shader output is exactly
the radial glow on every channel. -/
theorem fragmentMain_black (u : Uniforms) (p : ℝ × ℝ)
    (h1 : u.color1 = ⟨0, 0, 0⟩) (h2 : u.color2 = ⟨0, 0, 0⟩)
    (h3 : u.color3 = ⟨0, 0, 0⟩) (h4 : u.color4 = ⟨0, 0, 0⟩)
    (h5 : u.color5 = ⟨0, 0, 0⟩) (h6 : u.color6 = ⟨0, 0, 0⟩)
    (hg : u.grainIntensity = 0) :
    fragmentMain u p = ⟨radialGlow u p, radialGlow u p, radialGlow u p⟩ := by
  simp only [fragmentMain, radialGlow, h1, h2, h3, h4, h5, h6, hg, mul_zero,
    blendColors_black, add_zero, zero_add]

/-- The black hex string parses to the zero color. -/
theorem hexToRGB_black : hexToRGB "#000000" = Except.ok zeroRGB := by
  have hb : hexByte '0' '0' = 0 := by decide
  have h : (hexByte '0' '0' : ℚ) / 255 = 0 := by rw [hb]; norm_num
  show Except.ok (⟨(hexByte '0' '0' : ℚ) / 255, (hexByte '0' '0' : ℚ) / 255,
    (hexByte '0' '0' : ℚ) / 255⟩ : RGB ℚ) = Except.ok zeroRGB
  rw [h]
  rfl

/-- Mapping `hexToRGB` over the black configuration's colors yields six zero
colors. -/
theorem mapHexToRGB_black :
    mapHexToRGB blackConfig.colors =
      Except.ok [zeroRGB, zeroRGB, zeroRGB, zeroRGB, zeroRGB, zeroRGB] := by
  show mapHexToRGB ["#000000", "#000000", "#000000", "#000000", "#000000",
    "#000000"] = _
  simp [mapHexToRGB, hexToRGB_black]

/-- Pushing `blackConfig` at time `t` on an 800 x 600 canvas writes the black
store. -/
theorem blackStore_push (t : ℚ) :
    updateUniformsStore blackConfig t 800 600 initialUniformStore =
      Except.ok (blackStore t) := by
  unfold updateUniformsStore
  rw [mapHexToRGB_black]
  rfl

/-- The shader output for the black store is the radial glow on every
channel. -/
theorem fragmentMain_blackStore (t : ℚ) (p : ℝ × ℝ) :
    fragmentMain (toUniforms (blackStore t)) p =
      ⟨radialGlow (toUniforms (blackStore t)) p,
        radialGlow (toUniforms (blackStore t)) p,
        radialGlow (toUniforms (blackStore t)) p⟩ :=
  fragmentMain_black _ _
    (by simp [toUniforms, blackStore, rgbToReal, zeroRGB])
    (by simp [toUniforms, blackStore, rgbToReal, zeroRGB])
    (by simp [toUniforms, blackStore, rgbToReal, zeroRGB])
    (by simp [toUniforms, blackStore, rgbToReal, zeroRGB])
    (by simp [toUniforms, blackStore, rgbToReal, zeroRGB])
    (by simp [toUniforms, blackStore, rgbToReal, zeroRGB])
    (by simp [toUniforms, blackStore])

/-- At time 0 the radial glow at pixel `(400, 570)` of an 800 x 600 canvas is
at least `0.255`: the first glow center sits exactly on the pixel. -/
theorem radialGlow_black_zero_ge :
    (0.255 : ℝ) ≤ radialGlow (toUniforms (blackStore 0)) (400, 570) := by
  have ht : (toUniforms (blackStore 0)).time = 0 := by
    norm_num [toUniforms, blackStore]
  have hcs : (toUniforms (blackStore 0)).cycleSpeed = 4.5 := by
    norm_num [toUniforms, blackStore]
  have hrx : (toUniforms (blackStore 0)).resolutionX = 800 := by
    norm_num [toUniforms, blackStore]
  have hry : (toUniforms (blackStore 0)).resolutionY = 600 := by
    norm_num [toUniforms, blackStore]
  simp only [radialGlow, ht, hcs, hrx, hry]
  have ha1 : (0 : ℝ) / 4.5 * 1 = 0 := by norm_num
  have ha2 : (0 : ℝ) / 4.5 * 0.8 = 0 := by norm_num
  have ha3 : (0 : ℝ) / 4.5 * 1.4 = 0 := by norm_num
  have ha4 : (0 : ℝ) / 4.5 * 1.1 = 0 := by norm_num
  have ha5 : (0 : ℝ) / 4.5 * 2.5 * 0.6 = 0 := by norm_num
  have ha6 : (0 : ℝ) / 4.5 * 2.5 * 0.7 = 0 := by norm_num
  rw [ha1, ha2, ha3, ha4, ha5, ha6, Real.sin_zero, Real.cos_zero]
  have g1 := glow_ge 1.5 ((400 : ℝ) / 800, (570 : ℝ) / 600)
    (0.5 + 0 * 0.35, 0.7 + 1 * 0.25) 0 (by norm_num) le_rfl (by norm_num)
    (by norm_num)
  have g2 := glow_ge 1.8 ((400 : ℝ) / 800, (570 : ℝ) / 600)
    (0.5 + 0 * 0.30, 0.3 + 1 * 0.20) 0.25 (by norm_num) (by norm_num)
    (by norm_num) (by norm_num)
  have g3 := glow_ge 1.2 ((400 : ℝ) / 800, (570 : ℝ) / 600)
    (0.5 + 0 * 0.20, 0.5 + 1 * 0.15) 0.25 (by norm_num) (by norm_num)
    (by norm_num) (by norm_num)
  linarith [g1, g2, g3]

/-- One full cycle later (`t = 37.5`, slow time `25 / 3`) all three glow
centers have moved away from pixel `(400, 570)`: the radial glow is at most
`0.1958`. -/
theorem radialGlow_black_full_le :
    radialGlow (toUniforms (blackStore (75 / 2))) (400, 570) ≤ 0.1958 := by
  have ht : (toUniforms (blackStore (75 / 2))).time = 75 / 2 := by
    norm_num [toUniforms, blackStore]
  have hcs : (toUniforms (blackStore (75 / 2))).cycleSpeed = 4.5 := by
    norm_num [toUniforms, blackStore]
  have hrx : (toUniforms (blackStore (75 / 2))).resolutionX = 800 := by
    norm_num [toUniforms, blackStore]
  have hry : (toUniforms (blackStore (75 / 2))).resolutionY = 600 := by
    norm_num [toUniforms, blackStore]
  simp only [radialGlow, ht, hcs, hrx, hry]
  have ha1 : (75 : ℝ) / 2 / 4.5 * 1 = 25 / 3 := by norm_num
  have ha2 : (75 : ℝ) / 2 / 4.5 * 0.8 = 20 / 3 := by norm_num
  have ha3 : (75 : ℝ) / 2 / 4.5 * 1.4 = 35 / 3 := by norm_num
  have ha4 : (75 : ℝ) / 2 / 4.5 * 1.1 = 55 / 6 := by norm_num
  have ha5 : (75 : ℝ) / 2 / 4.5 * 2.5 * 0.6 = 25 / 2 := by norm_num
  have ha6 : (75 : ℝ) / 2 / 4.5 * 2.5 * 0.7 = 175 / 12 := by norm_num
  rw [ha1, ha2, ha3, ha4, ha5, ha6]
  have hs1 := sin_25_3_ge
  have hs2 := sin_35_3_le
  have hc2 := cos_55_6_le
  have hc3 := cos_175_12_le
  have g1 := glow_le 1.5 ((400 : ℝ) / 800, (570 : ℝ) / 600)
    (0.5 + Real.sin (25 / 3) * 0.35, 0.7 + Real.cos (20 / 3) * 0.25) 0.203
    (by norm_num) (by norm_num) (by norm_num)
    (by nlinarith [hs1, sq_nonneg (Real.sin (25 / 3) - 0.87),
      sq_nonneg ((570 : ℝ) / 600 - (0.7 + Real.cos (20 / 3) * 0.25))])
  have g2 := glow_le 1.8 ((400 : ℝ) / 800, (570 : ℝ) / 600)
    (0.5 + Real.sin (35 / 3) * 0.30, 0.3 + Real.cos (55 / 6) * 0.20) 0.4859
    (by norm_num) (by norm_num) (by norm_num)
    (by nlinarith [hs2, hc2, sq_nonneg (Real.sin (35 / 3) + 0.775),
      sq_nonneg (Real.cos (55 / 6) + 0.9664)])
  have g3 := glow_le 1.2 ((400 : ℝ) / 800, (570 : ℝ) / 600)
    (0.5 + Real.sin (25 / 2) * 0.20, 0.5 + Real.cos (175 / 12) * 0.15) 0.42765
    (by norm_num) (by norm_num) (by norm_num)
    (by nlinarith [hc3, sq_nonneg (Real.cos (175 / 12) + 0.4212),
      sq_nonneg ((400 : ℝ) / 800 - (0.5 + Real.sin (25 / 2) * 0.20))])
  linarith [g1, g2, g3]

/-- **C1** (amended): the rendered color field is not approximately periodic
with period `fullCycleDuration` as claimed; only the drift term is.  For
every nonzero cycle speed, the drift phase `slowTime * 0.12` inside the
final `fract` returns to itself after `cycleSpeed / 0.12` seconds, and for
the default configuration this drift period `cycleSpeed / 0.12` equals
`fullCycleDuration = 37.5` seconds. -/
theorem gradient_drift_period :
    (∀ (cs x t : ℝ), cs ≠ 0 →
      glslFract (x + (t + cs / 0.12) / cs * 0.12) = glslFract (x + t / cs * 0.12)) ∧
    DEFAULT_CONFIG.cycleSpeed / (0.12 : ℚ) = DEFAULT_CONFIG.fullCycleDuration := by
  constructor
  · intro cs x t hcs
    unfold glslFract
    have harg : x + (t + cs / 0.12) / cs * 0.12 = x + t / cs * 0.12 + 1 := by
      field_simp
      ring
    rw [harg, Int.floor_add_one]
    push_cast
    ring
  · norm_num [DEFAULT_CONFIG]

/-- **C1**, the claim as stated, refuted: the color field is not
approximately periodic with period `fullCycleDuration`, already at tolerance
`1 / 20`.  With the valid all-black zero-grain configuration, the output is
the radial glow alone; at pixel `(400, 570)` of an 800 x 600 canvas the
value at `t = 0` is `0.255` (a glow center sits on the pixel) while one
`fullCycleDuration = 37.5` s later it is below `0.1958`. -/
theorem colorField_not_approx_periodic : ¬ approxPeriodicClaim (1 / 20) := by
  intro hcl
  have h0 := blackStore_push 0
  have h1 : updateUniformsStore blackConfig (0 + blackConfig.fullCycleDuration) 800 600
      initialUniformStore = Except.ok (blackStore (75 / 2)) := by
    have he : (0 : ℚ) + blackConfig.fullCycleDuration = 75 / 2 := by
      norm_num [blackConfig, DEFAULT_CONFIG]
    rw [he]
    exact blackStore_push (75 / 2)
  have hb := hcl blackConfig 0 800 600 (blackStore 0) (blackStore (75 / 2))
    ((400 : ℝ), (570 : ℝ)) h0 h1 (by norm_num) (by push_cast; norm_num)
    (by norm_num) (by push_cast; norm_num)
  rw [fragmentMain_blackStore 0, fragmentMain_blackStore (75 / 2)] at hb
  have hb2 : |radialGlow (toUniforms (blackStore 0)) (400, 570) -
      radialGlow (toUniforms (blackStore (75 / 2))) (400, 570)| ≤ 1 / 20 := hb
  have hv0 := radialGlow_black_zero_ge
  have hv1 := radialGlow_black_full_le
  have habs := (abs_le.mp hb2).2
  linarith

end Portfolio
